import Mathlib

/-!
Verification of the scene-cards prompt generator (src/app.py).

The file shallowly embeds the deterministic prompt-templating core of the
program: the keyword category classifier (`suggest_category`), the
continuity resolver (`auto_continuity`), the beat sequencer (`build_beats`),
the camera-move table (`vary_camera`), the prompt assembler
(`build_prompts`), the scene-count derivation of the generate handler
(`sceneCount`) and the per-scene seed formula (`seedFor` / `sceneSeeds`).
Python strings become Lean `String`s, Python substring tests (`w in text`)
become `containsSub`, `str.lower()` becomes `pyLower`, `str.strip()`
becomes `pyStrip`, and the fallible dict lookups become `Option`-returning
lookups over association lists kept in the dicts' declaration order.
-/

namespace SceneCards

/-- Substring containment on character lists: `containsSub s pat` is `true`
exactly when `pat` occurs contiguously inside `s`, mirroring Python's
`pat in s` for strings (the empty pattern is contained in everything). -/
def containsSub : List Char → List Char → Bool
  | [], pat => pat.isEmpty
  | c :: t, pat => pat.isPrefixOf (c :: t) || containsSub t pat

/-- String-level substring containment, Python's `pat in s`. -/
def strContains (s pat : String) : Bool := containsSub s.data pat.data

/-- Python's `str.lower()`, character-wise lowercasing. -/
def pyLower (s : String) : String := ⟨s.data.map Char.toLower⟩

/-- Python's `str.strip()` on a character list: drop whitespace from both ends. -/
def stripChars (l : List Char) : List Char :=
  ((l.dropWhile Char.isWhitespace).reverse.dropWhile Char.isWhitespace).reverse

/-- Python's `str.strip()`. -/
def pyStrip (s : String) : String := ⟨stripChars s.data⟩

/-- The `CloneMeta` dataclass of app.py (all-string fields, empty defaults). -/
structure CloneMeta where
  url : String := ""
  source : String := ""
  title : String := ""
  description : String := ""
  site_name : String := ""
  image : String := ""
deriving DecidableEq, Repr

/-- One entry of the `STYLE_PRESETS` dict of app.py. -/
structure StylePreset where
  vibe : String
  camera : String
  lighting : String
deriving DecidableEq, Repr

/-- The dict returned by `auto_continuity` in app.py. -/
structure Continuity where
  actor_lock : String
  setting_lock : String
  mood_arc : String
  rules : String
deriving DecidableEq, Repr

/-- The `STYLE_PRESETS` dict of app.py, in declaration order. -/
def STYLE_PRESETS : List (String × StylePreset) :=
  [("Bushcraft",
    { vibe := "authentic bushcraft realism, tactile materials, practical tools",
      camera := "35mm documentary-cinema, stable handheld, shallow DOF",
      lighting := "natural light, golden hour or overcast realism" }),
   ("Survival",
    { vibe := "survival realism, urgency and constraints, grounded decisions",
      camera := "cinematic documentary, close-medium emotion + wide context",
      lighting := "moody overcast or dusk, realistic contrast" }),
   ("Shelter",
    { vibe := "shelter-building realism, clear progress beats, safe depiction",
      camera := "stable framing, medium-wide for structure + detail inserts",
      lighting := "daylight shifting toward dusk, consistent progression" }),
   ("DIY",
    { vibe := "clean DIY tutorial realism, satisfying progress means",
      camera := "tripod-stable, top-down + side angle, crisp detail",
      lighting := "soft practical lighting, clean shadows" }),
   ("Movie (Real-life)",
    { vibe := "cinematic real-life film look, high production",
      camera := "35mm film look, one clear camera move per scene, shallow DOF",
      lighting := "motivated cinematic lighting, practical sources" }),
   ("Animals (Real-life)",
    { vibe := "wildlife documentary realism, species-accurate behavior",
      camera := "telephoto look, stable handheld, natural bokeh",
      lighting := "natural outdoor light, true-to-life exposure" })]

/-- Dict lookup `STYLE_PRESETS[category]`, `none` modelling a `KeyError`. -/
def stylePreset? (category : String) : Option StylePreset :=
  (STYLE_PRESETS.find? (fun p => p.1 == category)).map Prod.snd

/-- The DIY keyword list of the `KW` dict of app.py. -/
def kwDIY : List String :=
  ["diy", "how to", "tutorial", "build", "make", "craft", "workbench",
   "assemble", "tools", "woodworking"]

/-- The `KW` keyword dict of app.py, in declaration (= iteration) order. -/
def KW : List (String × List String) :=
  [("Bushcraft",
    ["bushcraft", "campfire", "forest camp", "tarp", "cordage", "axe", "knife",
     "kindling", "outdoor camp"]),
   ("Survival",
    ["survival", "wilderness", "stranded", "lost", "storm", "rescue", "signal",
     "navigation", "sos", "water source"]),
   ("Shelter",
    ["shelter", "lean-to", "debris hut", "hut", "tarp shelter", "windbreak",
     "insulation", "camp shelter"]),
   ("DIY", kwDIY),
   ("Animals (Real-life)",
    ["wildlife", "animal", "animals", "nature", "documentary", "dog", "cat",
     "lion", "tiger", "elephant", "bird", "shark", "whale"]),
   ("Movie (Real-life)",
    ["cinematic", "film", "movie", "trailer", "scene", "thriller", "noir",
     "neon", "action"])]

/-- Keyword score of one category: `sum(1 for w in words if w in text)`. -/
def score (words : List String) (text : String) : Nat :=
  words.countP (fun w => containsSub text.data w.data)

/-- The best-so-far fold of `suggest_category`: starting from `init`
(initially the default category at score 0), replace the best (key, score)
pair whenever a strictly higher score appears. -/
def selBest {α β : Type} (f : α → Nat) (key : α → β) (init : β × Nat) (l : List α) : β × Nat :=
  l.foldl (fun b x => if b.2 < f x then (key x, f x) else b) init

/-- The classifier body of `suggest_category` on an already-joined text:
lowercase, score every category, keep the first strict improvement, and
fall back to the default unless the best score reaches 2. -/
def classify (text : String) : String :=
  let t := pyLower text
  let r := selBest (fun p : String × List String => score p.2 t) Prod.fst
    ("Movie (Real-life)", 0) KW
  if 2 ≤ r.2 then r.1 else "Movie (Real-life)"

/-- The joined text `f"{meta.title} {meta.description} {meta.site_name} {idea}"`. -/
def combinedText (meta : CloneMeta) (idea : String) : String :=
  meta.title ++ " " ++ meta.description ++ " " ++ meta.site_name ++ " " ++ idea

/-- `suggest_category` of app.py. -/
def suggest_category (meta : CloneMeta) (idea : String) : String :=
  classify (combinedText meta idea)

/-- Written from the spec's words, for refinement comparison with `classify`:
the maximum keyword-overlap score over all categories. -/
def maxScore (text : String) : Nat :=
  (KW.map (fun p => score p.2 (pyLower text))).foldl max 0

/-- Written from the spec's words, for refinement comparison with `classify`:
select the category with the highest count, ties broken by the first
category in table declaration order to reach the maximum, and return the
default Movie category whenever the winning score is below 2. -/
def classifySpec (text : String) : String :=
  if maxScore text < 2 then "Movie (Real-life)"
  else
    match KW.find? (fun p => score p.2 (pyLower text) == maxScore text) with
    | some p => p.1
    | none => "Movie (Real-life)"

/-- Actor lock of the Animals branch of `auto_continuity`. -/
def actorAnimals : String :=
  "Same wild animal subject across scenes (species-accurate markings, consistent size/features, natural behavior)."

/-- Setting lock of the Animals branch of `auto_continuity`. -/
def settingAnimals : String :=
  "Same natural habitat; camera keeps respectful distance; time-of-day evolves logically."

/-- Mood arc of the Animals branch of `auto_continuity`. -/
def moodAnimals : String :=
  "Observational calm → behavior highlight → calm exit."

/-- Actor lock of the DIY branch of `auto_continuity`. -/
def actorDIY : String :=
  "Same craftsperson across scenes (consistent hands/identity; same outfit: dark shirt + apron)."

/-- Setting lock of the DIY branch of `auto_continuity`. -/
def settingDIY : String :=
  "Same clean workshop and workbench; tools remain consistent; lighting stays coherent."

/-- Mood arc of the DIY branch of `auto_continuity`. -/
def moodDIY : String :=
  "Clean progress beats → satisfying reveal."

/-- Actor lock of the Bushcraft/Shelter/Survival branch of `auto_continuity`. -/
def actorOutdoors : String :=
  "Same outdoors person across scenes (consistent identity; same outfit: olive jacket, cargo pants, boots, backpack)."

/-- Setting lock of the Bushcraft/Shelter/Survival branch of `auto_continuity`. -/
def settingOutdoors : String :=
  "Same outdoor location continuity; weather/time shift gradually; no random location jumps."

/-- Mood arc of the Bushcraft/Shelter branch of `auto_continuity`. -/
def moodCalm : String :=
  "Calm focus → steady progress → satisfying completion."

/-- Mood arc of the Survival branch of `auto_continuity`. -/
def moodSurvival : String :=
  "Rising tension → decision → action → relief."

/-- Actor lock of the default branch of `auto_continuity`. -/
def actorDefault : String :=
  "Same main character across scenes (consistent identity, outfit, hairstyle, props)."

/-- Setting lock of the default branch of `auto_continuity`. -/
def settingDefault : String :=
  "Same world continuity; location evolves logically scene-to-scene; time progression consistent."

/-- Mood arc of the default branch of `auto_continuity`. -/
def moodDefault : String :=
  "Cinematic build-up → turning point → resolution."

/-- The universal rules line of `auto_continuity`. -/
def rulesLine : String :=
  "Realistic physics. Continuity enforced. No random costume/prop changes. No text/watermarks/logos."

/-- `auto_continuity` of app.py: pick the per-category (actor, setting, mood)
triple through the if/elif chain, append the flavor suffixes to the actor
lock, and attach the universal rules line. -/
def auto_continuity (category : String) (meta : CloneMeta) (idea : String) : Continuity :=
  let asm : String × String × String :=
    if category = "Animals (Real-life)" then (actorAnimals, settingAnimals, moodAnimals)
    else if category = "DIY" then (actorDIY, settingDIY, moodDIY)
    else if category ∈ (["Bushcraft", "Shelter", "Survival"] : List String) then
      (actorOutdoors, settingOutdoors,
        if category ≠ "Survival" then moodCalm else moodSurvival)
    else (actorDefault, settingDefault, moodDefault)
  let flavor : String :=
    (if meta.title ≠ "" then " Inspired by source title: " ++ meta.title ++ "." else "") ++
    (if idea ≠ "" then " Idea: " ++ idea ++ "." else "")
  { actor_lock := asm.1 ++ flavor,
    setting_lock := asm.2.1,
    mood_arc := asm.2.2,
    rules := rulesLine }

/-- The 8-entry Animals beat catalog of `build_beats`. -/
def animalBeats : List (String × String) :=
  [("Establish Habitat", "Wide habitat shot; subtle animal presence."),
   ("First Sighting", "Animal enters naturally; no human influence."),
   ("Behavior Detail", "Close detail of natural behavior (foraging/grooming/listening)."),
   ("Interaction", "Non-violent interaction (pairing/parenting/group movement)."),
   ("Natural Challenge", "Terrain/weather obstacle; animal responds naturally."),
   ("Adaptation", "Highlight a species adaptation (speed/hearing/camouflage)."),
   ("Calm Moment", "Quiet pause; emphasize ambience."),
   ("Exit", "Animal leaves frame; habitat remains; soft ending.")]

/-- The 10-entry generic beat catalog of `build_beats`. -/
def genericBeats : List (String × String) :=
  [("Opening Shot", "Establish subject, location, and goal; show the ‘before’ state."),
   ("Rising Tension", "Introduce a constraint (time/weather/missing item/unexpected issue)."),
   ("First Action", "Do first key step; include close details of hands/tools/materials."),
   ("Progress Check", "Show measurable progress; improve stability/efficiency."),
   ("Complication", "Something goes wrong; fix it logically (no magic)."),
   ("Second Action", "Next major step; emphasize technique and realism."),
   ("Turning Point", "Milestone achieved; satisfying progress moment."),
   ("Final Push", "Finish the final step; secure/verify result."),
   ("Result Reveal", "Hero reveal of the finished result; clean wide shot."),
   ("Outro", "Calm ending; confirm continuity; tease next project.")]

/-- The catalog selection of `build_beats`: the Animals catalog for
"Animals (Real-life)", the generic catalog for everything else. -/
def baseCatalog (category : String) : List (String × String) :=
  if category = "Animals (Real-life)" then animalBeats else genericBeats

/-- Python's list repetition `base * k`: `k` concatenated copies. -/
def listMul {α : Type} (l : List α) : Nat → List α
  | 0 => []
  | k + 1 => l ++ listMul l k

/-- `build_beats` of app.py: `(base * (n // len(base) + 1))[:n]`, then number
each title with its 1-based position. -/
def build_beats (n : Nat) (category : String) : List (String × String) :=
  let base := baseCatalog category
  let out := (listMul base (n / base.length + 1)).take n
  out.enum.map (fun p => (toString (p.1 + 1) ++ ". " ++ p.2.1, p.2.2))

/-- The fixed 10-entry camera-move list of `vary_camera`. -/
def cameraMoves : List String :=
  ["slow push-in", "gentle pan", "static locked-off", "low-angle reveal",
   "over-the-shoulder detail insert", "macro close-up", "wide establishing",
   "rack focus", "top-down instructional angle", "handheld follow"]

/-- `vary_camera` of app.py: `moves[i % len(moves)]`. -/
def vary_camera (i : Nat) : String :=
  cameraMoves.getD (i % cameraMoves.length) ""

/-- The detail-phrase dict of `build_prompts`, in declaration order. -/
def detailTable : List (String × String) :=
  [("Normal", "high realism, clean detail"),
   ("High", "ultra-detailed, micro-textures, crisp edges, natural grain"),
   ("Max", "extreme detail, micro-textures, realistic lighting physics, cinematic color science")]

/-- The dict lookup `{...}[detail_level]` of `build_prompts`, `none`
modelling a `KeyError`. -/
def detailPhrase? (detail_level : String) : Option String :=
  (detailTable.find? (fun p => p.1 == detail_level)).map Prod.snd

/-- The `clone_line` of `build_prompts`: the full Source/Title/Desc line when
title or description is truthy, otherwise just the Source part. -/
def clone_line (meta : CloneMeta) : String :=
  if meta.title ≠ "" ∨ meta.description ≠ "" then
    "Source=" ++ meta.source ++ "; Title=" ++ meta.title ++ "; Desc=" ++ meta.description
  else
    "Source=" ++ meta.source

/-- The `story` f-string of `build_prompts`. -/
def storyOf (continuity : Continuity) (meta : CloneMeta) (beat_text : String) : String :=
  beat_text ++ "\n" ++
  "Continuity: " ++ continuity.actor_lock ++ " | " ++ continuity.setting_lock ++ "\n" ++
  "Mood arc: " ++ continuity.mood_arc ++ "\n" ++
  "Clone cues: " ++ clone_line meta

/-- The `video_prompt` f-string of `build_prompts` (triple-quoted template
followed by `.strip()`). -/
def videoPromptOf (idx n : Nat) (orientation : String) (preset : StylePreset)
    (cam_move : String) (continuity : Continuity) (beat_title beat_text : String)
    (scene_seconds : Nat) (seed : Int) : String :=
  pyStrip
    ("SCENE " ++ toString (idx + 1) ++ "/" ++ toString n ++ " — " ++ beat_title ++
     " [" ++ orientation ++ "] (~" ++ toString scene_seconds ++ "s)\n" ++
     "STYLE: " ++ preset.vibe ++ ". " ++ preset.camera ++ ". Lighting: " ++ preset.lighting ++ ".\n" ++
     "CAMERA MOVE: " ++ cam_move ++ ". Pacing: controlled, cinematic, clear cause-effect.\n" ++
     "CONTINUITY (LOCKED): " ++ continuity.actor_lock ++ " ; " ++ continuity.setting_lock ++ ".\n" ++
     "MOOD ARC: " ++ continuity.mood_arc ++ ".\n" ++
     "SCENE BEAT: " ++ beat_text ++ "\n" ++
     "RULES: " ++ continuity.rules ++ "\n" ++
     "SEED NOTE (for consistency): " ++ toString seed ++ "\n")

/-- The `image_prompt` f-string of `build_prompts` (triple-quoted template
followed by `.strip()`). -/
def imagePromptOf (idx n : Nat) (category orientation : String) (preset : StylePreset)
    (cam_move detail_phrase : String) (continuity : Continuity) (meta : CloneMeta)
    (beat_title beat_text : String) : String :=
  pyStrip
    ("IMAGE PROMPT — Scene " ++ toString (idx + 1) ++ "/" ++ toString n ++ " — " ++ beat_title ++
     " (" ++ category ++ ") [" ++ orientation ++ "]\n" ++
     detail_phrase ++ ". " ++ preset.vibe ++ ". " ++ preset.camera ++ ". " ++ preset.lighting ++ ".\n" ++
     "Camera move feel: " ++ cam_move ++ ". Strong composition, readable action, no text.\n" ++
     "Subject lock: " ++ continuity.actor_lock ++ ".\n" ++
     "Setting lock: " ++ continuity.setting_lock ++ ".\n" ++
     "Beat: " ++ beat_text ++ ".\n" ++
     "Clone cues: " ++ clone_line meta ++ ".\n")

/-- `build_prompts` of app.py, returning the `(story, video_prompt,
image_prompt)` triple; `none` models the `KeyError` of the two dict
lookups (`STYLE_PRESETS[category]` and the detail-phrase table). -/
def build_prompts (idx n : Nat) (category orientation : String)
    (continuity : Continuity) (meta : CloneMeta) (beat_title beat_text : String)
    (scene_seconds : Nat) (seed : Int) (detail_level : String) :
    Option (String × String × String) :=
  match stylePreset? category, detailPhrase? detail_level with
  | some preset, some dp =>
    some (storyOf continuity meta beat_text,
          videoPromptOf idx n orientation preset (vary_camera idx) continuity
            beat_title beat_text scene_seconds seed,
          imagePromptOf idx n category orientation preset (vary_camera idx) dp
            continuity meta beat_title beat_text)
  | _, _ => none

/-- Scene-count derivation of the generate handler:
`n = max(1, int(total_duration // scene_len))`. -/
def sceneCount (total_duration scene_len : Nat) : Nat :=
  max 1 (total_duration / scene_len)

/-- Per-scene seed of the generate handler: `seed = int(base_seed) + i * 17`. -/
def seedFor (base_seed : Int) (i : Nat) : Int :=
  base_seed + (i : Int) * 17

/-- The seed sequence produced by the generate loop `for i in range(n)`. -/
def sceneSeeds (base_seed : Int) (n : Nat) : List Int :=
  (List.range n).map (seedFor base_seed)

/-- The six concrete category values of the tables (the "Auto" UI entry is
resolved to one of these before the pipeline runs). -/
def sixCategories : List String :=
  ["Bushcraft", "Survival", "Shelter", "DIY", "Movie (Real-life)", "Animals (Real-life)"]

/-- A `CloneMeta` with every field empty. -/
def emptyMeta : CloneMeta := {}

/-- A `CloneMeta` for a plain web source with no scraped fields. -/
def webMeta : CloneMeta := { source := "Web" }

/-- A prefix test is exactly the existence of a completing suffix. -/
theorem isPrefixOf_iff_exists {p s : List Char} :
    p.isPrefixOf s = true ↔ ∃ t, s = p ++ t := by
  induction p generalizing s with
  | nil => simp [List.isPrefixOf]
  | cons a as ih =>
    cases s with
    | nil => simp [List.isPrefixOf]
    | cons b bs =>
      simp only [List.isPrefixOf, Bool.and_eq_true, beq_iff_eq, ih, List.cons_append]
      constructor
      · rintro ⟨rfl, t, rfl⟩
        exact ⟨t, rfl⟩
      · rintro ⟨t, ht⟩
        obtain ⟨h1, h2⟩ := List.cons.injEq b bs (a) (as ++ t) ▸ ht
        exact ⟨h1.symm ▸ rfl, t, h2⟩

/-- Containment is exactly the existence of a split around the pattern. -/
theorem containsSub_iff {s pat : List Char} :
    containsSub s pat = true ↔ ∃ l r, s = l ++ pat ++ r := by
  induction s with
  | nil =>
    simp only [containsSub, List.isEmpty_iff]
    constructor
    · rintro rfl
      exact ⟨[], [], rfl⟩
    · rintro ⟨l, r, h⟩
      rcases List.append_eq_nil.mp h.symm with ⟨h1, h2⟩
      exact (List.append_eq_nil.mp h1).2
  | cons c t ih =>
    rw [containsSub, Bool.or_eq_true, isPrefixOf_iff_exists, ih]
    constructor
    · rintro (⟨r, hr⟩ | ⟨l, r, hlr⟩)
      · exact ⟨[], r, by simpa using hr⟩
      · exact ⟨c :: l, r, by simp [hlr]⟩
    · rintro ⟨l, r, hlr⟩
      cases l with
      | nil => exact Or.inl ⟨r, by simpa using hlr⟩
      | cons x xs =>
        simp only [List.cons_append, List.cons.injEq] at hlr
        exact Or.inr ⟨xs, r, hlr.2⟩

/-- Containment is transitive through an intermediate pattern. -/
theorem containsSub_trans {s p q : List Char}
    (h1 : containsSub s p = true) (h2 : containsSub p q = true) :
    containsSub s q = true := by
  rw [containsSub_iff] at *
  obtain ⟨l, r, rfl⟩ := h1
  obtain ⟨l', r', rfl⟩ := h2
  exact ⟨l ++ l', r' ++ r, by simp [List.append_assoc]⟩

/-- Containment survives character-wise mapping. -/
theorem containsSub_map (f : Char → Char) {s p : List Char}
    (h : containsSub s p = true) :
    containsSub (s.map f) (p.map f) = true := by
  rw [containsSub_iff] at *
  obtain ⟨l, r, rfl⟩ := h
  exact ⟨l.map f, r.map f, by simp⟩

/-- A string contains its own right append part. -/
theorem strContains_append_right (a b : String) : strContains (a ++ b) b = true := by
  rw [strContains, containsSub_iff]
  exact ⟨a.data, [], by simp [String.data_append]⟩

/-- Stripping a text that starts with a non-whitespace character and ends in
a period followed by a newline only removes the final newline. -/
theorem stripChars_shape (c : Char) (m : List Char) (hc : c.isWhitespace = false) :
    stripChars (c :: (m ++ ['.', '\n'])) = c :: (m ++ ['.']) := by
  rw [stripChars, List.dropWhile_cons, hc]
  simp only [Bool.false_eq_true, if_false]
  have h2 : (c :: (m ++ ['.', '\n'])).reverse = '\n' :: ('.' :: (m.reverse ++ [c])) := by
    simp
  rw [h2, List.dropWhile_cons, List.dropWhile_cons]
  simp [show ('\n').isWhitespace = true from by decide,
        show ('.').isWhitespace = false from by decide]

/-- Stripping the assembled image-prompt template keeps the clone-cues part:
if the text before the pattern starts with the letter I, the pattern is
still contained after `pyStrip`. -/
theorem strContains_pyStrip_tail (A cl : String) {t : List Char}
    (hA : A.data = 'I' :: t) :
    strContains (pyStrip (A ++ cl ++ ".\n")) cl = true := by
  rw [strContains, pyStrip]
  have hdata : (A ++ cl ++ ".\n").data = 'I' :: ((t ++ cl.data) ++ ['.', '\n']) := by
    rw [String.data_append, String.data_append, hA]
    simp [List.append_assoc]
  rw [hdata, stripChars_shape _ _ (by decide), containsSub_iff]
  exact ⟨'I' :: t, ['.'], by simp [List.append_assoc]⟩

/-- Characterisation of the best-so-far fold: either no element beats the
initial score (and the fold returns the initial pair), or the fold returns
the first element whose score strictly exceeds everything before it and is
not exceeded by anything after it. -/
theorem selBest_spec {α β : Type} (f : α → Nat) (key : α → β) (init : β × Nat) (l : List α) :
    (selBest f key init l = init ∧ ∀ y ∈ l, f y ≤ init.2) ∨
    (∃ l₁ x l₂, l = l₁ ++ x :: l₂ ∧ selBest f key init l = (key x, f x) ∧ init.2 < f x ∧
      (∀ y ∈ l₁, f y < f x) ∧ (∀ y ∈ l₂, f y ≤ f x)) := by
  induction l generalizing init with
  | nil => exact Or.inl ⟨rfl, by simp⟩
  | cons z rest ih =>
    have hstep : selBest f key init (z :: rest)
        = selBest f key (if init.2 < f z then (key z, f z) else init) rest := by
      rw [selBest, List.foldl_cons]
      rfl
    by_cases hz : init.2 < f z
    · rw [hstep, if_pos hz]
      rcases ih (key z, f z) with ⟨hEq, hAll⟩ | ⟨l₁, x, l₂, hsp, hEq, hgt, hbef, haft⟩
      · exact Or.inr ⟨[], z, rest, rfl, hEq, hz, by simp, fun y hy => hAll y hy⟩
      · refine Or.inr ⟨z :: l₁, x, l₂, by rw [hsp, List.cons_append], hEq, ?_, ?_, haft⟩
        · exact Nat.lt_trans hz hgt
        · intro y hy
          rcases List.mem_cons.mp hy with rfl | hy'
          · exact hgt
          · exact hbef y hy'
    · rw [hstep, if_neg hz]
      rcases ih init with ⟨hEq, hAll⟩ | ⟨l₁, x, l₂, hsp, hEq, hgt, hbef, haft⟩
      · refine Or.inl ⟨hEq, ?_⟩
        intro y hy
        rcases List.mem_cons.mp hy with rfl | hy'
        · omega
        · exact hAll y hy'
      · refine Or.inr ⟨z :: l₁, x, l₂, by rw [hsp, List.cons_append], hEq, hgt, ?_, haft⟩
        intro y hy
        rcases List.mem_cons.mp hy with rfl | hy'
        · omega
        · exact hbef y hy'

/-- A max-fold stays below any common upper bound. -/
theorem foldl_max_le {l : List Nat} {c : Nat} :
    ∀ {a : Nat}, a ≤ c → (∀ y ∈ l, y ≤ c) → l.foldl max a ≤ c := by
  induction l with
  | nil => intro a ha _; simpa using ha
  | cons x xs ih =>
    intro a ha h
    rw [List.foldl_cons]
    exact ih (max_le ha (h x (by simp))) (fun y hy => h y (by simp [hy]))

/-- A max-fold dominates its initial value. -/
theorem init_le_foldl_max (l : List Nat) : ∀ a, a ≤ l.foldl max a := by
  induction l with
  | nil => simp
  | cons x xs ih =>
    intro a
    rw [List.foldl_cons]
    exact le_trans (le_max_left a x) (ih _)

/-- A max-fold dominates every list element. -/
theorem mem_le_foldl_max {l : List Nat} {y : Nat} (hy : y ∈ l) : ∀ a, y ≤ l.foldl max a := by
  induction l with
  | nil => simp at hy
  | cons x xs ih =>
    intro a
    rw [List.foldl_cons]
    rcases List.mem_cons.mp hy with rfl | hy'
    · exact le_trans (le_max_right a y) (init_le_foldl_max xs _)
    · exact ih hy' _

/-- `find?` skips a failing block and returns the first success. -/
theorem find?_append_first {α : Type} {p : α → Bool} {l₁ : List α} {x : α} {l₂ : List α}
    (h₁ : ∀ y ∈ l₁, p y = false) (hx : p x = true) :
    (l₁ ++ x :: l₂).find? p = some x := by
  induction l₁ with
  | nil => simp [List.find?_cons, hx]
  | cons z zs ih =>
    rw [List.cons_append, List.find?_cons, h₁ z (by simp)]
    exact ih (fun y hy => h₁ y (by simp [hy]))

/-- The fold-based classifier of the code agrees with the spec-worded
maximum/first-to-reach/threshold classifier on every input string. -/
theorem classify_eq_classifySpec (text : String) : classify text = classifySpec text := by
  rw [classify, classifySpec, maxScore]
  set t := pyLower text with ht
  set f : String × List String → Nat := fun p => score p.2 t with hf
  rcases selBest_spec f Prod.fst ("Movie (Real-life)", 0) KW with
    ⟨hEq, hAll⟩ | ⟨l₁, x, l₂, hsp, hEq, hgt, hbef, haft⟩
  · have hM : (KW.map f).foldl max 0 = 0 := by
      refine Nat.le_antisymm (foldl_max_le (Nat.le_refl 0) ?_) (Nat.zero_le _)
      intro y hy
      obtain ⟨a, ha, rfl⟩ := List.mem_map.mp hy
      exact hAll a ha
    rw [hEq, hM]
    simp
  · have hxKW : x ∈ KW := by
      rw [hsp]
      exact List.mem_append.mpr (Or.inr (List.mem_cons_self x l₂))
    have hMle : (KW.map f).foldl max 0 ≤ f x := by
      refine foldl_max_le (Nat.zero_le _) ?_
      intro y hy
      obtain ⟨a, ha, rfl⟩ := List.mem_map.mp hy
      rw [hsp] at ha
      rcases List.mem_append.mp ha with ha1 | ha2
      · exact Nat.le_of_lt (hbef a ha1)
      · rcases List.mem_cons.mp ha2 with rfl | ha3
        · exact Nat.le_refl _
        · exact haft a ha3
    have hMge : f x ≤ (KW.map f).foldl max 0 :=
      mem_le_foldl_max (List.mem_map.mpr ⟨x, hxKW, rfl⟩) 0
    have hM : (KW.map f).foldl max 0 = f x := Nat.le_antisymm hMle hMge
    rw [hEq]
    dsimp only
    simp only [hf] at hM hbef ⊢
    have hfind : KW.find? (fun p => score p.2 t == score x.2 t) = some x := by
      conv_lhs => rw [hsp]
      refine find?_append_first ?_ (beq_self_eq_true _)
      intro y hy
      exact beq_eq_false_iff_ne.mpr (Nat.ne_of_lt (hbef y hy))
    rw [hM, hfind]
    by_cases h2 : 2 ≤ score x.2 t
    · rw [if_pos h2, if_neg (by omega)]
    · rw [if_neg h2, if_pos (by omega)]

/-- The classifier result is the default category or a key of the keyword
table (totality over the closed six-category set). -/
theorem classify_mem (text : String) :
    classify text = "Movie (Real-life)" ∨ ∃ p ∈ KW, classify text = p.1 := by
  rw [classify]
  set t := pyLower text with ht
  set f : String × List String → Nat := fun p => score p.2 t with hf
  rcases selBest_spec f Prod.fst ("Movie (Real-life)", 0) KW with
    ⟨hEq, _⟩ | ⟨l₁, x, l₂, hsp, hEq, _, _, _⟩
  · rw [hEq]
    simp
  · rw [hEq]
    dsimp only
    by_cases h2 : 2 ≤ f x
    · rw [if_pos h2]
      refine Or.inr ⟨x, ?_, rfl⟩
      rw [hsp]
      exact List.mem_append.mpr (Or.inr (List.mem_cons_self x l₂))
    · rw [if_neg h2]
      exact Or.inl rfl

/-- When no category scores at least 2, the classifier keeps the default. -/
theorem classify_below_threshold (text : String)
    (h : ∀ p ∈ KW, score p.2 (pyLower text) ≤ 1) :
    classify text = "Movie (Real-life)" := by
  rw [classify]
  set t := pyLower text with ht
  set f : String × List String → Nat := fun p => score p.2 t with hf
  rcases selBest_spec f Prod.fst ("Movie (Real-life)", 0) KW with
    ⟨hEq, _⟩ | ⟨l₁, x, l₂, hsp, hEq, _, _, _⟩
  · rw [hEq]
    simp
  · rw [hEq]
    dsimp only
    have hx : x ∈ KW := by
      rw [hsp]
      exact List.mem_append.mpr (Or.inr (List.mem_cons_self x l₂))
    have hle : f x ≤ 1 := h x hx
    rw [if_neg (by omega)]

/-- Length of Python list repetition. -/
theorem listMul_length {α : Type} (l : List α) (k : Nat) :
    (listMul l k).length = k * l.length := by
  induction k with
  | zero => simp [listMul]
  | succ k ih =>
    rw [listMul, List.length_append, ih, Nat.succ_mul]
    omega

/-- Indexing into Python list repetition cycles through the base list. -/
theorem listMul_getD {α : Type} (l : List α) (d : α) (k : Nat) :
    ∀ i, i < k * l.length → (listMul l k).getD i d = l.getD (i % l.length) d := by
  induction k with
  | zero => intro i h; omega
  | succ k ih =>
    intro i h
    rw [listMul]
    by_cases hi : i < l.length
    · rw [List.getD_append _ _ _ _ hi, Nat.mod_eq_of_lt hi]
    · push_neg at hi
      rw [List.getD_append_right _ _ _ _ hi]
      have hlen : 0 < l.length := by
        rcases Nat.eq_zero_or_pos l.length with h0 | h0
        · rw [h0] at h
          omega
        · exact h0
      have hs : (k + 1) * l.length = k * l.length + l.length := Nat.succ_mul k l.length
      have h2 : i - l.length < k * l.length := by omega
      rw [ih _ h2]
      congr 1
      conv_rhs => rw [← Nat.sub_add_cancel hi]
      rw [Nat.add_mod_right]

/-- A valid index turns `get?` into the `getD` value. -/
theorem get?_eq_some_getD {α : Type} (l : List α) (d : α) (i : Nat) (h : i < l.length) :
    l.get? i = some (l.getD i d) := by
  rw [List.getD_eq_getD_get?]
  cases hq : l.get? i with
  | none =>
    rw [List.get?_eq_none] at hq
    omega
  | some a => simp

/-- Indexing an enumeration pairs the index with the underlying element. -/
theorem enumFrom_get? {α : Type} (l : List α) :
    ∀ (s i : Nat), (List.enumFrom s l).get? i = (l.get? i).map (fun a => (s + i, a)) := by
  induction l with
  | nil => intro s i; simp [List.enumFrom]
  | cons x xs ih =>
    intro s i
    cases i with
    | zero => simp [List.enumFrom]
    | succ j =>
      rw [List.enumFrom_cons]
      show (List.enumFrom (s + 1) xs).get? j = _
      rw [ih (s + 1) j]
      have : s + 1 + j = s + (j + 1) := by omega
      rw [this]
      rfl

/-- Both beat catalogs are non-empty. -/
theorem baseCatalog_length_pos (c : String) : 0 < (baseCatalog c).length := by
  rw [baseCatalog]
  split <;> decide

/-- The repetition count `n / L + 1` of `build_beats` covers `n`. -/
theorem lt_div_succ_mul (n L : Nat) (hpos : 0 < L) : n < (n / L + 1) * L := by
  have h1 := Nat.div_add_mod n L
  have h2 : n % L < L := Nat.mod_lt _ hpos
  calc n = L * (n / L) + n % L := h1.symm
    _ < L * (n / L) + L := by omega
    _ = L * (n / L + 1) := (Nat.mul_succ L _).symm
    _ = (n / L + 1) * L := Nat.mul_comm _ _

/-- `build_beats` always returns exactly `n` entries. -/
theorem build_beats_length (n : Nat) (c : String) : (build_beats n c).length = n := by
  have hpos := baseCatalog_length_pos c
  have hlt := lt_div_succ_mul n (baseCatalog c).length hpos
  simp only [build_beats, List.length_map, List.enum_length, List.length_take, listMul_length]
  omega

/-- Entry `i` of `build_beats` is the catalog entry at `i` modulo the catalog
length, with the title prefixed by the 1-based position. -/
theorem build_beats_getD (n : Nat) (c : String) (i : Nat) (h : i < n) :
    (build_beats n c).getD i ("", "") =
      (toString (i + 1) ++ ". " ++ ((baseCatalog c).getD (i % (baseCatalog c).length) ("", "")).1,
       ((baseCatalog c).getD (i % (baseCatalog c).length) ("", "")).2) := by
  have hpos := baseCatalog_length_pos c
  have hlt := lt_div_succ_mul n (baseCatalog c).length hpos
  have hcyc : i < (listMul (baseCatalog c) (n / (baseCatalog c).length + 1)).length := by
    rw [listMul_length]
    omega
  rw [List.getD_eq_getD_get?]
  simp only [build_beats]
  rw [List.get?_map]
  have henum : ∀ (L : List (String × String)), L.enum = List.enumFrom 0 L := fun _ => rfl
  rw [henum, enumFrom_get?, List.get?_take h,
      get?_eq_some_getD _ ("", "") i hcyc,
      listMul_getD _ _ _ i (by rw [listMul_length] at hcyc; exact hcyc)]
  simp

/-- A string with a non-empty left append part is non-empty. -/
theorem append_ne_empty_left {a : String} (b : String) (h : a ≠ "") : a ++ b ≠ "" := by
  intro he
  apply h
  have hd := congrArg String.data he
  rw [String.data_append] at hd
  have : a.data = [] := (List.append_eq_nil.mp hd).1
  exact String.ext this

/-- Distinct in-range indices of the camera-move table yield distinct moves. -/
theorem cameraMoves_getD_ne :
    ∀ a < 10, ∀ b < 10, a ≠ b → cameraMoves.getD a "" ≠ cameraMoves.getD b "" := by decide

/-- Every one of the six categories has a style preset. -/
theorem stylePreset_isSome : ∀ c ∈ sixCategories, (stylePreset? c).isSome = true := by decide

/-- Every one of the three detail levels has a detail phrase. -/
theorem detailPhrase_isSome :
    ∀ d ∈ (["Normal", "High", "Max"] : List String), (detailPhrase? d).isSome = true := by decide

/-- When both lookups succeed, `build_prompts` returns the assembled triple. -/
theorem build_prompts_eq_some {category detail_level : String} {p : StylePreset} {d : String}
    (hp : stylePreset? category = some p) (hd : detailPhrase? detail_level = some d)
    (idx n : Nat) (orientation : String) (continuity : Continuity) (meta : CloneMeta)
    (bt btext : String) (ss : Nat) (seed : Int) :
    build_prompts idx n category orientation continuity meta bt btext ss seed detail_level =
      some (storyOf continuity meta btext,
            videoPromptOf idx n orientation p (vary_camera idx) continuity bt btext ss seed,
            imagePromptOf idx n category orientation p (vary_camera idx) d
              continuity meta bt btext) := by
  rw [build_prompts, hp, hd]

/-- When both lookups succeed, `build_prompts` does not fail. -/
theorem build_prompts_isSome {category detail_level : String}
    (hp : (stylePreset? category).isSome = true) (hd : (detailPhrase? detail_level).isSome = true)
    (idx n : Nat) (orientation : String) (continuity : Continuity) (meta : CloneMeta)
    (bt btext : String) (ss : Nat) (seed : Int) :
    (build_prompts idx n category orientation continuity meta bt btext ss seed
      detail_level).isSome = true := by
  obtain ⟨p, hp'⟩ := Option.isSome_iff_exists.mp hp
  obtain ⟨d, hd'⟩ := Option.isSome_iff_exists.mp hd
  rw [build_prompts_eq_some hp' hd']
  rfl

/-- The story text always contains the clone-cues line. -/
theorem storyOf_contains_clone (cont : Continuity) (meta : CloneMeta) (btext : String) :
    strContains (storyOf cont meta btext) (clone_line meta) = true := by
  rw [storyOf]
  exact strContains_append_right _ _

/-- The image prompt always contains the clone-cues line, surviving the
final `strip()`. -/
theorem imagePromptOf_contains_clone (idx n : Nat) (category orientation : String)
    (preset : StylePreset) (cam dp : String) (cont : Continuity) (meta : CloneMeta)
    (bt btext : String) :
    strContains (imagePromptOf idx n category orientation preset cam dp cont meta bt btext)
      (clone_line meta) = true := by
  rw [imagePromptOf]
  apply strContains_pyStrip_tail
  simp only [String.data_append, List.cons_append]
  rfl

/-- C1 (counterexample): the scene count is not the guarded ceiling
`max(1, ceil(total/perScene))`: at `totalDurationSeconds = 61`,
`secondsPerScene = 6` the code computes 10, the ceiling formula 11. -/
theorem scene_count_ceiling_cex :
    sceneCount 61 6 ≠ max 1 ((61 + 6 - 1) / 6) := by decide

/-- C1 (amended): the scene count is a guarded floor,
`N = max(1, floor(total/perScene))`: `N ≥ 1` always, `60/6 → 10`,
`61/6 → 10` (not 11), and when at least one full scene fits the guard is
inactive and `N` is exactly the floor quotient. -/
theorem scene_count_floor_guarded :
    (∀ total len : Nat, 1 ≤ sceneCount total len) ∧
    sceneCount 60 6 = 10 ∧ sceneCount 61 6 = 10 ∧
    (∀ total len : Nat, 0 < len → len ≤ total → sceneCount total len = total / len) := by
  refine ⟨fun total len => le_max_left 1 _, by decide, by decide, ?_⟩
  intro total len hl hle
  rw [sceneCount]
  have h1 : 1 ≤ total / len := (Nat.one_le_div_iff hl).mpr hle
  omega

/-- Witness for C1 at `total = 60`, `len = 6`. -/
theorem scene_count_floor_guarded_witness : sceneCount 60 6 = 60 / 6 :=
  scene_count_floor_guarded.2.2.2 60 6 (by decide) (by decide)

/-- C2: the classifier is total over strings and agrees everywhere with the
spec-worded rule (highest keyword count, first category in declaration
order to reach the maximum wins ties, default Movie category below the
threshold of 2); the empty string maps to the default, one matched keyword
is never enough to leave the default, and the bushcraft example classifies
as Bushcraft. -/
theorem classifier_spec_complete :
    (∀ text, classify text = classifySpec text) ∧
    classify "" = "Movie (Real-life)" ∧
    (∀ text, (∀ p ∈ KW, score p.2 (pyLower text) ≤ 1) → classify text = "Movie (Real-life)") ∧
    classify "bushcraft campfire forest camp tarp" = "Bushcraft" ∧
    (∀ meta idea, suggest_category meta idea = "Movie (Real-life)" ∨
      ∃ p ∈ KW, suggest_category meta idea = p.1) :=
  ⟨classify_eq_classifySpec, by decide, classify_below_threshold, by decide,
   fun meta idea => classify_mem (combinedText meta idea)⟩

/-- Witness for C2: the single keyword "craft" scores below the threshold
everywhere and the classifier keeps the default. -/
theorem classifier_spec_complete_witness :
    (∀ p ∈ KW, score p.2 (pyLower "craft") ≤ 1) ∧ classify "craft" = "Movie (Real-life)" :=
  ⟨by decide, classifier_spec_complete.2.2.1 "craft" (by decide)⟩

/-- C3 (counterexample): the first entry of `buildBeats(12, DIY)` is not the
first DIY catalog entry — its title carries the "1. " numbering prefix. -/
theorem build_beats_numbering_cex :
    (build_beats 12 "DIY").getD 0 ("", "") ≠ genericBeats.getD 0 ("", "") := by decide

set_option maxRecDepth 1000000 in
/-- C3 (amended): `buildBeats(n, category)` returns exactly `n` pairs whose
descriptions equal the category catalog (8 entries for Animals, 10
otherwise) repeated and truncated to `n`, and whose titles are the cycled
catalog titles prefixed with the 1-based scene number; for `n = 12`, DIY,
the descriptions of entries 11–12 equal catalog descriptions 1–2. -/
theorem build_beats_cycle :
    (∀ n c, (build_beats n c).length = n) ∧
    (∀ n c i, i < n →
      (build_beats n c).getD i ("", "") =
        (toString (i + 1) ++ ". " ++
           ((baseCatalog c).getD (i % (baseCatalog c).length) ("", "")).1,
         ((baseCatalog c).getD (i % (baseCatalog c).length) ("", "")).2)) ∧
    animalBeats.length = 8 ∧ genericBeats.length = 10 ∧
    (build_beats 12 "DIY").map Prod.snd =
      (List.range 12).map (fun i => (genericBeats.getD (i % 10) ("", "")).2) ∧
    ((build_beats 12 "DIY").getD 10 ("", "")).2 = (genericBeats.getD 0 ("", "")).2 ∧
    ((build_beats 12 "DIY").getD 11 ("", "")).2 = (genericBeats.getD 1 ("", "")).2 :=
  ⟨build_beats_length, fun n c i h => build_beats_getD n c i h,
   by decide, by decide, by decide, by decide, by decide⟩

/-- Witness for C3 at the cycle-wrap index 10 of a 12-entry DIY request. -/
theorem build_beats_cycle_witness :
    (build_beats 12 "DIY").getD 10 ("", "") =
      (toString (10 + 1) ++ ". " ++
         ((baseCatalog "DIY").getD (10 % (baseCatalog "DIY").length) ("", "")).1,
       ((baseCatalog "DIY").getD (10 % (baseCatalog "DIY").length) ("", "")).2) :=
  build_beats_cycle.2.1 12 "DIY" 10 (by decide)

/-- C9: every beat title is the catalog title of the cycled position
prefixed with the 1-based scene number. -/
theorem beat_title_numbering :
    ∀ n c i, i < n →
      ((build_beats n c).getD i ("", "")).1 =
        toString (i + 1) ++ ". " ++
          ((baseCatalog c).getD (i % (baseCatalog c).length) ("", "")).1 := by
  intro n c i h
  rw [build_beats_getD n c i h]

/-- Witness for C9 at the repeated beat of a 12-entry DIY request. -/
theorem beat_title_numbering_witness :
    ((build_beats 12 "DIY").getD 10 ("", "")).1 =
      toString (10 + 1) ++ ". " ++
        ((baseCatalog "DIY").getD (10 % (baseCatalog "DIY").length) ("", "")).1 :=
  beat_title_numbering 12 "DIY" 10 (by decide)

/-- C6 (counterexample): in a 12-scene DIY request (scene count exceeds the
10-entry catalog), scene 0 and scene 0 + catalogLength receive the same
camera-move string, not distinct ones. -/
theorem camera_move_repeat_cex :
    (baseCatalog "DIY").length < 12 ∧
    vary_camera 0 = vary_camera (0 + (baseCatalog "DIY").length) := by decide

set_option maxRecDepth 1000000 in
/-- C6 (amended): when the scene count exceeds the catalog length, scenes
`i` and `i + catalogLength` carry identical description text and distinct
seeds; the camera moves coincide for the 10-entry generic catalog (since
camera moves cycle with period 10) and differ only for the 8-entry Animals
catalog; the two scene outputs still differ because the seed (and the scene
number) is rendered into the prompts, as the concrete 12-scene DIY request
shows at scenes 0 and 10. -/
theorem beat_cycle_variation :
    (∀ c n i, i + (baseCatalog c).length < n →
      ((build_beats n c).getD (i + (baseCatalog c).length) ("", "")).2 =
        ((build_beats n c).getD i ("", "")).2) ∧
    (∀ (base : Int) (c : String) (i : Nat),
      seedFor base (i + (baseCatalog c).length) ≠ seedFor base i) ∧
    (∀ c i, c ≠ "Animals (Real-life)" →
      vary_camera (i + (baseCatalog c).length) = vary_camera i) ∧
    (∀ i, vary_camera (i + (baseCatalog "Animals (Real-life)").length) ≠ vary_camera i) ∧
    build_prompts 0 12 "DIY" "vertical 9:16" (auto_continuity "DIY" webMeta "") webMeta
        ((build_beats 12 "DIY").getD 0 ("", "")).1 ((build_beats 12 "DIY").getD 0 ("", "")).2
        6 (seedFor 123456 0) "High" ≠
      build_prompts 10 12 "DIY" "vertical 9:16" (auto_continuity "DIY" webMeta "") webMeta
        ((build_beats 12 "DIY").getD 10 ("", "")).1 ((build_beats 12 "DIY").getD 10 ("", "")).2
        6 (seedFor 123456 10) "High" := by
  refine ⟨?_, ?_, ?_, ?_, by decide⟩
  · intro c n i h
    have hpos := baseCatalog_length_pos c
    have h1 : i < n := by omega
    rw [build_beats_getD n c i h1, build_beats_getD n c (i + (baseCatalog c).length) h]
    dsimp only
    rw [Nat.add_mod_right]
  · intro base c i
    have hpos := baseCatalog_length_pos c
    simp only [seedFor]
    push_cast
    omega
  · intro c i hne
    have hc : baseCatalog c = genericBeats := by rw [baseCatalog, if_neg hne]
    rw [hc]
    show vary_camera (i + 10) = vary_camera i
    rw [vary_camera, vary_camera]
    have hmod : (i + 10) % cameraMoves.length = i % cameraMoves.length := by
      show (i + 10) % 10 = i % 10
      omega
    rw [hmod]
  · intro i
    show vary_camera (i + 8) ≠ vary_camera i
    rw [vary_camera, vary_camera]
    have h10 : cameraMoves.length = 10 := rfl
    rw [h10]
    exact cameraMoves_getD_ne _ (Nat.mod_lt _ (by decide)) _ (Nat.mod_lt _ (by decide))
      (by omega)

/-- Witness for C6 at a 12-scene DIY request, scene 0 against scene 10. -/
theorem beat_cycle_variation_witness :
    0 + (baseCatalog "DIY").length < 12 ∧
    ((build_beats 12 "DIY").getD (0 + (baseCatalog "DIY").length) ("", "")).2 =
      ((build_beats 12 "DIY").getD 0 ("", "")).2 :=
  ⟨by decide, beat_cycle_variation.1 "DIY" 12 0 (by decide)⟩

/-- C7: the seed of scene `i` is exactly `baseSeed + i * 17` in exact
integer arithmetic; a 5-scene run with base seed 100 yields
`[100, 117, 134, 151, 168]`, and seeds within a request are pairwise
distinct. -/
theorem seed_arithmetic :
    sceneSeeds 100 5 = [100, 117, 134, 151, 168] ∧
    (∀ base n, (sceneSeeds base n).Nodup) ∧
    (∀ (base : Int) (n i : Nat), i < n → (sceneSeeds base n).getD i 0 = base + (i : Int) * 17) ∧
    (∀ (base : Int) (i j : Nat), i ≠ j → seedFor base i ≠ seedFor base j) := by
  refine ⟨by decide, ?_, ?_, ?_⟩
  · intro base n
    refine List.Nodup.map ?_ (List.nodup_range n)
    intro a b hab
    simp only [seedFor] at hab
    omega
  · intro base n i h
    rw [sceneSeeds, List.getD_eq_getD_get?, List.get?_map, List.get?_range h]
    rfl
  · intro base i j hne
    simp only [seedFor]
    omega

/-- Witness for C7 at scene 2 of a 5-scene run with base seed 100. -/
theorem seed_arithmetic_witness :
    (sceneSeeds 100 5).getD 2 0 = 100 + ((2 : Nat) : Int) * 17 :=
  seed_arithmetic.2.2.1 100 5 2 (by decide)

/-- C5 (counterexample): the flavor suffix appended for a non-empty source
title is " Inspired by source title: {title}.", not
" Source inspiration: {title}." as the claim words it. -/
theorem continuity_flavor_wording_cex :
    (auto_continuity "Bushcraft" { title := "X" } "").actor_lock ≠
      actorOutdoors ++ " Source inspiration: X." := by decide

/-- C5 (amended): `auto_continuity` appends the flavor suffixes —
" Inspired by source title: {title}." when the title is non-empty, then
" Idea: {idea}." when the idea is non-empty — only to the actor-lock field;
setting lock, mood arc and rules are the fixed per-category strings,
unaffected by title and idea, and any category outside the five specially
handled ones falls through to the generic default bundle. -/
theorem continuity_flavor_suffix :
    (∀ c meta idea,
      auto_continuity c meta idea =
        { actor_lock := (auto_continuity c emptyMeta "").actor_lock ++
            (if meta.title ≠ "" then " Inspired by source title: " ++ meta.title ++ "." else "") ++
            (if idea ≠ "" then " Idea: " ++ idea ++ "." else ""),
          setting_lock := (auto_continuity c emptyMeta "").setting_lock,
          mood_arc := (auto_continuity c emptyMeta "").mood_arc,
          rules := (auto_continuity c emptyMeta "").rules }) ∧
    (∀ c, c ∉ (["Animals (Real-life)", "DIY", "Bushcraft", "Shelter", "Survival"] : List String) →
      ∀ meta idea, auto_continuity c meta idea = auto_continuity "Movie (Real-life)" meta idea) := by
  constructor
  · intro c meta idea
    simp only [auto_continuity, emptyMeta]
    simp [Continuity.mk.injEq, String.append_assoc]
  · intro c hmem meta idea
    simp only [List.mem_cons, List.mem_singleton, not_or] at hmem
    obtain ⟨h1, h2, h3, h4, h5⟩ := hmem
    simp only [auto_continuity]
    rw [if_neg h1, if_neg h2, if_neg (by simp [h3, h4, h5])]
    simp

/-- Witness for C5: an unknown category falls through to the default. -/
theorem continuity_flavor_suffix_witness :
    auto_continuity "Other" emptyMeta "" = auto_continuity "Movie (Real-life)" emptyMeta "" :=
  continuity_flavor_suffix.2 "Other" (by decide) emptyMeta ""

set_option maxRecDepth 1000000 in
/-- C4 (counterexample): with empty title and description, the video prompt
does not contain "Source={platform}" at all — the clone-cues line appears
only in the story and the image prompt. -/
theorem build_prompts_source_line_cex :
    (build_prompts 0 1 "Movie (Real-life)" "vertical 9:16"
        (auto_continuity "Movie (Real-life)" webMeta "") webMeta "1. Opening Shot"
        "Establish subject, location, and goal; show the ‘before’ state." 6 123456 "High").map
      (fun t => strContains t.2.1 ("Source=" ++ webMeta.source)) = some false := by decide

set_option maxRecDepth 1000000 in
/-- C4 (amended): with empty title and description the clone-cues line is
exactly "Source={platform}"; for every valid category and detail level the
assembler returns a result whose story and image prompt contain the
clone-cues line (the video prompt template has no clone-cues line); with
non-empty title or description the line is the full
"Source=..; Title=..; Desc=.." form; and at the representative empty-meta
input none of the three outputs contains "Title=" or "Desc=". -/
theorem build_prompts_degrade :
    (∀ meta : CloneMeta, meta.title = "" → meta.description = "" →
      clone_line meta = "Source=" ++ meta.source) ∧
    (∀ meta : CloneMeta, meta.title ≠ "" ∨ meta.description ≠ "" →
      clone_line meta = "Source=" ++ meta.source ++ "; Title=" ++ meta.title ++
        "; Desc=" ++ meta.description) ∧
    (∀ (idx n : Nat) (category orientation : String) (continuity : Continuity)
      (meta : CloneMeta) (bt btext : String) (ss : Nat) (seed : Int) (dl : String),
      category ∈ sixCategories → dl ∈ (["Normal", "High", "Max"] : List String) →
      ∃ s vp ip,
        build_prompts idx n category orientation continuity meta bt btext ss seed dl =
          some (s, vp, ip) ∧
        strContains s (clone_line meta) = true ∧
        strContains ip (clone_line meta) = true) ∧
    (build_prompts 0 1 "Movie (Real-life)" "vertical 9:16"
        (auto_continuity "Movie (Real-life)" webMeta "") webMeta "1. Opening Shot"
        "Establish subject, location, and goal; show the ‘before’ state." 6 123456 "High").map
      (fun t => [strContains t.1 "Source=Web", strContains t.2.2 "Source=Web",
                 strContains t.1 "Title=", strContains t.2.1 "Title=", strContains t.2.2 "Title=",
                 strContains t.1 "Desc=", strContains t.2.1 "Desc=", strContains t.2.2 "Desc="]) =
      some [true, true, false, false, false, false, false, false] := by
  refine ⟨?_, ?_, ?_, by decide⟩
  · intro meta h1 h2
    rw [clone_line, if_neg (by simp [h1, h2])]
  · intro meta h
    rw [clone_line, if_pos h]
  · intro idx n category orientation continuity meta bt btext ss seed dl hcat hdl
    obtain ⟨p, hp⟩ := Option.isSome_iff_exists.mp (stylePreset_isSome category hcat)
    obtain ⟨d, hd⟩ := Option.isSome_iff_exists.mp (detailPhrase_isSome dl hdl)
    exact ⟨_, _, _, build_prompts_eq_some hp hd idx n orientation continuity meta bt btext ss seed,
      storyOf_contains_clone continuity meta btext,
      imagePromptOf_contains_clone idx n category orientation p (vary_camera idx) d
        continuity meta bt btext⟩

/-- Witness for C4 at the representative empty-meta input. -/
theorem build_prompts_degrade_witness :
    ∃ s vp ip,
      build_prompts 0 1 "Movie (Real-life)" "vertical 9:16"
          (auto_continuity "Movie (Real-life)" webMeta "") webMeta "1. Opening Shot"
          "Establish subject, location, and goal; show the ‘before’ state." 6 123456 "High" =
        some (s, vp, ip) ∧
      strContains s (clone_line webMeta) = true ∧
      strContains ip (clone_line webMeta) = true :=
  build_prompts_degrade.2.2.1 0 1 "Movie (Real-life)" "vertical 9:16"
    (auto_continuity "Movie (Real-life)" webMeta "") webMeta "1. Opening Shot"
    "Establish subject, location, and goal; show the ‘before’ state." 6 123456 "High"
    (by decide) (by decide)

/-- All four continuity fields are non-empty for every input. -/
theorem auto_continuity_ne_empty (c : String) (meta : CloneMeta) (idea : String) :
    (auto_continuity c meta idea).actor_lock ≠ "" ∧
    (auto_continuity c meta idea).setting_lock ≠ "" ∧
    (auto_continuity c meta idea).mood_arc ≠ "" ∧
    (auto_continuity c meta idea).rules ≠ "" := by
  simp only [auto_continuity]
  split_ifs <;>
    exact ⟨append_ne_empty_left _ (by decide), by decide, by decide, by decide⟩

/-- C8: every one of the six categories has a style preset with non-empty
vibe, camera and lighting, a continuity bundle with all four fields
non-empty for every input, and a non-empty beat catalog; consequently the
assembler's lookups cannot fail for these categories (with a valid detail
level), so the error branch is unreachable. -/
theorem category_tables_total :
    ∀ c ∈ sixCategories,
      (∃ p, stylePreset? c = some p ∧ p.vibe ≠ "" ∧ p.camera ≠ "" ∧ p.lighting ≠ "") ∧
      (∀ meta idea,
        (auto_continuity c meta idea).actor_lock ≠ "" ∧
        (auto_continuity c meta idea).setting_lock ≠ "" ∧
        (auto_continuity c meta idea).mood_arc ≠ "" ∧
        (auto_continuity c meta idea).rules ≠ "") ∧
      baseCatalog c ≠ [] ∧
      (∀ (idx n : Nat) (orientation : String) (continuity : Continuity) (meta : CloneMeta)
        (bt btext : String) (ss : Nat) (seed : Int),
        ∀ dl ∈ (["Normal", "High", "Max"] : List String),
          (build_prompts idx n c orientation continuity meta bt btext ss seed dl).isSome
            = true) := by
  intro c hc
  refine ⟨?_, fun meta idea => auto_continuity_ne_empty c meta idea, ?_, ?_⟩
  · fin_cases hc <;> exact ⟨_, rfl, by decide, by decide, by decide⟩
  · fin_cases hc <;> decide
  · intro idx n orientation continuity meta bt btext ss seed dl hdl
    refine build_prompts_isSome ?_ (detailPhrase_isSome dl hdl) idx n orientation
      continuity meta bt btext ss seed
    fin_cases hc <;> decide

/-- Witness for C8 at the DIY category. -/
theorem category_tables_total_witness : baseCatalog "DIY" ≠ [] :=
  (category_tables_total "DIY" (by decide)).2.2.1

/-- C10: the classifier scores raw substring containment over the lowered
concatenation of title, description, site name and idea: any input whose
combined text contains "bushcraft" gives the DIY keyword "craft" a match
and hence DIY a score of at least 1; every keyword counts at most once;
and a site-name-only input is scored (it alone can decide the category). -/
theorem classifier_substring_scoring :
    (∀ meta idea, containsSub (combinedText meta idea).data "bushcraft".data = true →
      1 ≤ score kwDIY (pyLower (combinedText meta idea))) ∧
    (∀ words text, score words text ≤ words.length) ∧
    suggest_category { site_name := "bushcraft campfire forest camp tarp" } "" = "Bushcraft" := by
  refine ⟨?_, ?_, by decide⟩
  · intro meta idea h
    have hlow : containsSub (pyLower (combinedText meta idea)).data "bushcraft".data = true := by
      have hm := containsSub_map Char.toLower h
      have hfix : ("bushcraft".data.map Char.toLower) = "bushcraft".data := by decide
      rw [hfix] at hm
      exact hm
    have hcraft : containsSub "bushcraft".data "craft".data = true := by decide
    have hfin : containsSub (pyLower (combinedText meta idea)).data "craft".data = true :=
      containsSub_trans hlow hcraft
    exact List.countP_pos.mpr ⟨"craft", by decide, hfin⟩
  · intro words text
    exact List.countP_le_length _

/-- Witness for C10 at a title containing "bushcraft". -/
theorem classifier_substring_scoring_witness :
    1 ≤ score kwDIY (pyLower (combinedText { title := "bushcraft" } "")) :=
  classifier_substring_scoring.1 { title := "bushcraft" } "" (by decide)

end SceneCards
